import Mathlib

/-!
Verification development for the free-mind-ai repository.

The definitions below are shallow embeddings of the Python code in
`dataset_alter_expand.py`, `app.py` and `app_sync_backup.py`:

* the rule-based dataset alteration interpreter `alter_csv_rule_based`
  (its regular expressions are hand-compiled into deterministic scanners
  that implement the leftmost-search backtracking semantics of the
  Python `re` module for exactly those patterns),
* the offline dataset expansion `expand_csv_offline`,
* the provider selection of `DataExpander.__init__`,
* the fallback drivers of the `/api/alter-dataset` and
  `/api/expand-dataset` routes,
* the Gemini retry chain `generate_with_gemini`,
* the training branch dispatch of the `/process` route,
* the async job tracker of `app_sync_backup.py`,
* a minimal model of the Python block-structure rule used to settle the
  two syntax-error claims.

Machine floats are idealised as rationals; randomness and the standard
deviation (which needs a square root) are supplied by oracle
environments, mirroring the role of `numpy.random` in the code.
-/

/-! ## Character classes (ASCII idealisation of Python `\w`, `\s`, `\d`) -/

/-- Python regex class `\w`: alphanumeric or underscore. -/
def isWordChar (c : Char) : Bool := c.isAlphanum || c = '_'

/-- Python regex class `[\w\s]`: word character or whitespace.  Used by the
gap `[\w\s]*?` inside the rule patterns. -/
def isGapChar (c : Char) : Bool := isWordChar c || c.isWhitespace

/-- Truth value of `\w` for an optional character; a missing character
(string edge) counts as a non-word character. -/
def optWord : Option Char → Bool
  | some c => isWordChar c
  | none => false

/-- Python regex assertion `\b`: holds between two (optional) characters
iff exactly one of them is a word character. -/
def wordBoundary (prev next : Option Char) : Bool := optWord prev != optWord next

/-- Python `str.strip`: drop whitespace from both ends. -/
def stripChars (s : List Char) : List Char :=
  ((s.dropWhile Char.isWhitespace).reverse.dropWhile Char.isWhitespace).reverse

/-- Model of `alter_prompt.strip().lower()` in `alter_csv_rule_based`. -/
def stripLower (s : String) : List Char :=
  (stripChars s.toList).map Char.toLower

/-- Model of `str(col).lower()` used when searching for column mentions. -/
def lowerChars (s : String) : List Char := s.toList.map Char.toLower

/-- Substring containment, modelling the Python operator `"add" in low`. -/
def containsSub (pat : List Char) : List Char → Bool
  | [] => pat.isEmpty
  | c :: rest => pat.isPrefixOf (c :: rest) || containsSub pat rest

/-! ## Decimal numerals

The capture groups of the rule patterns all have the shape
`-?\d+(?:\.\d+)?`; `parse_number` converts them with Python `float`.
Rationals represent the decimal value exactly. -/

/-- Value of a digit string. -/
def digitsVal (ds : List Char) : Nat := ds.foldl (fun a c => a * 10 + (c.toNat - 48)) 0

/-- Exact decimal number: the value is `mant / 10 ^ shift`.  The numerals
captured by the rule patterns are finite decimals, which Python `float`
parses into (here idealised, exact) values; keeping the mantissa explicit
makes the zero test of the division guard a plain integer test, exactly
as `float == 0` holds iff the mantissa is zero. -/
structure Dec where
  mant : Int
  shift : Nat
deriving DecidableEq, Repr

/-- Rational value of a decimal. -/
def Dec.toRat (d : Dec) : ℚ := (d.mant : ℚ) / (10 : ℚ) ^ d.shift

/-- Zero test of a decimal, equivalent to `toRat = 0`. -/
def Dec.isZero (d : Dec) : Bool := d.mant == 0

/-- Decimal value of an optionally signed numeral with integer digits `ds`
and fractional digits `fs`. -/
def mkDecimal (sign : Bool) (ds fs : List Char) : Dec :=
  let m : Int := ((digitsVal ds * 10 ^ fs.length + digitsVal fs : Nat) : Int)
  ⟨if sign then -m else m, fs.length⟩

/-- Greedy match of `-?\d+(?:\.\d+)?` at the current position.  The
backtracking of the Python engine never helps for this fragment (a
shortened digit run is followed by a digit, which none of the possible
continuations accept), so maximal munch is faithful. -/
def numHere (s : List Char) : Option Dec :=
  let sign : Bool := match s with | '-' :: _ => true | _ => false
  let s1 := match s with | '-' :: r => r | _ => s
  let ds := s1.takeWhile Char.isDigit
  if ds.isEmpty then none
  else
    let r1 := s1.drop ds.length
    let fs := match r1 with
      | '.' :: r2 => (r2.takeWhile Char.isDigit)
      | _ => []
    some (mkDecimal sign ds fs)

/-- Match of `\s*` followed by a numeral, as after the connector words. -/
def numAfterSpaces (s : List Char) : Option Dec :=
  numHere (s.dropWhile Char.isWhitespace)

/-! ## The percent pattern

`re.search(r"(\d+(?:\.\d+)?)\s*%", low)` from line 278 of
`dataset_alter_expand.py`; the scanner below walks the start positions
left to right exactly like `re.search`. -/

/-- Leftmost match of `(\d+(?:\.\d+)?)\s*%`; returns the numeric value of
the capture group. -/
def pctScan : List Char → Option Dec
  | [] => none
  | c :: rest =>
    (if c.isDigit then
      let ds := (c :: rest).takeWhile Char.isDigit
      let r1 := (c :: rest).drop ds.length
      let fr : List Char × List Char := match r1 with
        | '.' :: r2 =>
          let f := r2.takeWhile Char.isDigit
          if f.isEmpty then ([], r1) else (f, r2.drop f.length)
        | _ => ([], r1)
      match fr.2.dropWhile Char.isWhitespace with
      | '%' :: _ => some (mkDecimal false ds fr.1)
      | _ => none
    else none).orElse (fun _ => pctScan rest)

/-! ## The operation patterns

Hand-compiled scanners for
`multiply[\w\s]*?(?:by|with)\s*(-?\d+(?:\.\d+)?)`,
`divide[\w\s]*?by\s*(-?\d+(?:\.\d+)?)`,
`(?:add|increase)[\w\s]*?(?:by\s*)?(-?\d+(?:\.\d+)?)(?:\s*%)?` and
`(?:subtract|decrease|reduce)[\w\s]*?(?:by\s*)?(-?\d+(?:\.\d+)?)(?:\s*%)?`
(lines 284, 289, 294 and 302 of `dataset_alter_expand.py`).  The lazy gap
`[\w\s]*?` stops at the first position where the tail pattern matches and
can only cross word characters and whitespace; the trailing `(?:\s*%)?`
never influences the capture group. -/

/-- Try the connector alternation (for example `by|with`) at the current
position: the first connector that is a prefix and is followed by
`\s*` and a numeral wins. -/
def tryConns : List (List Char) → List Char → Option Dec
  | [], _ => none
  | conn :: cs, s =>
    match (if conn.isPrefixOf s then numAfterSpaces (s.drop conn.length) else none) with
    | some v => some v
    | none => tryConns cs s

/-- Walk the lazy gap `[\w\s]*?`: at each position first try the
connector alternation, then (when the connector is optional) a bare
numeral, and otherwise extend the gap over a word or space character. -/
def gapScan (conns : List (List Char)) (connOpt : Bool) : List Char → Option Dec
  | [] => none
  | c :: rest =>
    match tryConns conns (c :: rest) with
    | some v => some v
    | none =>
      match (if connOpt then numHere (c :: rest) else none) with
      | some v => some v
      | none => if isGapChar c then gapScan conns connOpt rest else none

/-- Try each keyword of the leading alternation at the current position,
followed by the gap and the rest of the pattern. -/
def tryKws (conns : List (List Char)) (connOpt : Bool) :
    List (List Char) → List Char → Option Dec
  | [], _ => none
  | kw :: ks, s =>
    match (if kw.isPrefixOf s then gapScan conns connOpt (s.drop kw.length) else none) with
    | some v => some v
    | none => tryKws conns connOpt ks s

/-- Leftmost search for `(?:kw1|kw2|...)[\w\s]*?conn\s*(numeral)` (with the
connector optional when `connOpt` is set), returning the value of the
capture group, like `re.search(...).group(1)`. -/
def searchKwNum (kws conns : List (List Char)) (connOpt : Bool) : List Char → Option Dec
  | [] => none
  | c :: rest =>
    match tryKws conns connOpt kws (c :: rest) with
    | some v => some v
    | none => searchKwNum kws conns connOpt rest

/-- Search for the multiply pattern of line 284. -/
def parseMul (low : List Char) : Option Dec :=
  searchKwNum [ "multiply".toList] [ "by".toList, "with".toList] false low

/-- Search for the divide pattern of line 289. -/
def parseDiv (low : List Char) : Option Dec :=
  searchKwNum [ "divide".toList] [ "by".toList] false low

/-- Guarded search for the add pattern of lines 293 and 294. -/
def parseAddNum (low : List Char) : Option Dec :=
  if containsSub "add".toList low || containsSub "increase".toList low then
    searchKwNum [ "add".toList, "increase".toList] [ "by".toList] true low
  else none

/-- Guarded search for the subtract pattern of lines 301 and 302. -/
def parseSubNum (low : List Char) : Option Dec :=
  if containsSub "subtract".toList low || containsSub "decrease".toList low
      || containsSub "reduce".toList low then
    searchKwNum [ "subtract".toList, "decrease".toList, "reduce".toList] [ "by".toList] true low
  else none

/-- Arithmetic operation selected by `alter_csv_rule_based`. -/
inductive RuleOp where
  | mul
  | div
  | add
  | sub
deriving DecidableEq, Repr

/-- State of the variables `op`, `num` and `pct` after lines 274 to 308 of
`alter_csv_rule_based`. -/
structure ParsedRule where
  op : Option RuleOp
  num : Option Dec
  pct : Bool
deriving DecidableEq, Repr

/-- Model of the prompt parsing (lines 274 to 308): the percent pattern
fixes `pct` and a provisional `num`; the four operation patterns are then
tried in order, and for add and subtract a percent match keeps the
percent number. -/
def parsePrompt (low : List Char) : ParsedRule :=
  let pctNum := pctScan low
  match parseMul low with
  | some v => ⟨some RuleOp.mul, some v, pctNum.isSome⟩
  | none =>
    match parseDiv low with
    | some v => ⟨some RuleOp.div, some v, pctNum.isSome⟩
    | none =>
      match parseAddNum low with
      | some v => ⟨some RuleOp.add, (if pctNum.isSome then pctNum else some v), pctNum.isSome⟩
      | none =>
        match parseSubNum low with
        | some v => ⟨some RuleOp.sub, (if pctNum.isSome then pctNum else some v), pctNum.isSome⟩
        | none => ⟨none, pctNum, pctNum.isSome⟩

/-! ## Dataframe model

Columnar model of a pandas dataframe: each column is a name together with
either numeric data (floats idealised as rationals) or text data (`none`
modelling a null/NaN cell).  Integer dtypes are idealised as floats. -/

/-- Data of one dataframe column. -/
inductive ColData where
  | num (vals : List ℚ)
  | txt (vals : List (Option String))
deriving DecidableEq, Repr

/-- True for a numeric column, modelling
`pd.api.types.is_numeric_dtype` / `select_dtypes(include=["number"])`. -/
def isNumData : ColData → Bool
  | ColData.num _ => true
  | ColData.txt _ => false

/-- Number of cells in a column. -/
def dataLen : ColData → Nat
  | ColData.num vs => vs.length
  | ColData.txt vs => vs.length

/-- A dataframe: ordered list of named columns (names assumed distinct, as
`pd.read_csv` mangles duplicates). -/
structure DataFrame where
  cols : List (String × ColData)
deriving DecidableEq, Repr

/-- Number of rows (length of the first column; dataframes are
rectangular). -/
def DataFrame.nrows (df : DataFrame) : Nat :=
  match df.cols with
  | [] => 0
  | c :: _ => dataLen c.2

/-- Model of the pandas `df.empty` test: no columns or no rows. -/
def DataFrame.isEmpty (df : DataFrame) : Bool :=
  df.cols.isEmpty || df.nrows == 0

/-- Names of the numeric columns in order
(`df.select_dtypes(include=["number"]).columns.tolist()`, line 256). -/
def numericColNames (df : DataFrame) : List String :=
  df.cols.filterMap (fun c => if isNumData c.2 then some c.1 else none)

/-- Occurrence of the literal `pat` as a whole word (pattern
`\b re.escape(pat) \b`) somewhere in `s`, given the character before the
current position; models `re.search` at line 263. -/
def wordHere (pat : List Char) (prev : Option Char) (s : List Char) : Bool :=
  pat.isPrefixOf s && wordBoundary prev s.head? &&
    wordBoundary (match pat.getLast? with | some c => some c | none => prev)
      ((s.drop pat.length).head?)

/-- Leftmost-position scan for a whole-word occurrence of `pat`. -/
def mentionedIn (pat : List Char) : Option Char → List Char → Bool
  | prev, [] => wordHere pat prev []
  | prev, c :: rest => wordHere pat prev (c :: rest) || mentionedIn pat (some c) rest

/-- Columns whose lower-cased name occurs as a whole word in the
lower-cased prompt (lines 260 to 264). -/
def mentionedColNames (df : DataFrame) (low : List Char) : List String :=
  df.cols.filterMap (fun c => if mentionedIn (lowerChars c.1) none low then some c.1 else none)

/-- Target columns (lines 255 to 266): the mentioned columns, defaulting
to all numeric columns when none are mentioned. -/
def targetCols (df : DataFrame) (low : List Char) : List String :=
  let m := mentionedColNames df low
  if m.isEmpty then numericColNames df else m

/-- One iteration of the loop of lines 315 to 338 on a single column:
non-numeric columns are skipped, and each operation applies element-wise,
the division only for a divisor that is neither `None` nor `0`.  The
second component is the contribution to the `applied` flag. -/
def transformCol (op : RuleOp) (n : Option Dec) (pct : Bool) : ColData → ColData × Bool
  | ColData.txt vs => (ColData.txt vs, false)
  | ColData.num vs =>
    match op, n with
    | _, none => (ColData.num vs, false)
    | RuleOp.mul, some m => (ColData.num (vs.map (fun x => x * m.toRat)), true)
    | RuleOp.div, some m =>
      if m.isZero then (ColData.num vs, false)
      else (ColData.num (vs.map (fun x => x / m.toRat)), true)
    | RuleOp.add, some m =>
      (ColData.num (vs.map (fun x => if pct then x * (1 + m.toRat / 100) else x + m.toRat)), true)
    | RuleOp.sub, some m =>
      (ColData.num (vs.map (fun x => if pct then x * (1 - m.toRat / 100) else x - m.toRat)), true)

/-- The whole loop of lines 313 to 338: transform every targeted column,
leave the others as they are, and accumulate the `applied` flag. -/
def alterCols (op : RuleOp) (n : Option Dec) (pct : Bool) (ts : List String) :
    List (String × ColData) → List (String × ColData) × Bool
  | [] => ([], false)
  | c :: rest =>
    let r := alterCols op n pct ts rest
    if c.1 ∈ ts then
      let t := transformCol op n pct c.2
      ((c.1, t.1) :: r.1, t.2 || r.2)
    else (c :: r.1, r.2)

/-- Shallow embedding of `DataExpander.alter_csv_rule_based`
(lines 242 to 339 of `dataset_alter_expand.py`). -/
def alter_csv_rule_based (df : DataFrame) (alter_prompt : String) : DataFrame × Bool :=
  if df.isEmpty then (df, false)
  else
    let low := stripLower alter_prompt
    let p := parsePrompt low
    match p.op with
    | none => (df, false)
    | some op =>
      let r := alterCols op p.num p.pct (targetCols df low) df.cols
      (⟨r.1⟩, r.2)

/-! ## The C1 claim as a specification function -/

/-- Per-value operation exactly as the claim words it: multiplication by
N, division by N, addition of N or scaling by `1 + N/100` under a percent
prompt, subtraction of N or scaling by `1 - N/100`. -/
def claimOpFun : RuleOp → Dec → Bool → ℚ → ℚ
  | RuleOp.mul, n, _, x => x * n.toRat
  | RuleOp.div, n, _, x => x / n.toRat
  | RuleOp.add, n, pct, x => if pct then x * (1 + n.toRat / 100) else x + n.toRat
  | RuleOp.sub, n, pct, x => if pct then x * (1 - n.toRat / 100) else x - n.toRat

/-- Element-wise application of the claimed operation to one column. -/
def claimApplyCol (op : RuleOp) (n : Dec) (pct : Bool) : ColData → ColData
  | ColData.num vs => ColData.num (vs.map (fun x => claimOpFun op n pct x))
  | ColData.txt vs => ColData.txt vs

/-- Specification function written from the words of claim C1: parse the
prompt with the fixed patterns, apply the selected operator element-wise
to the targeted numeric columns (all four operators unconditionally),
report `applied` iff some targeted numeric column exists, and return the
dataframe unchanged with `applied = False` when no pattern matches. -/
def ruleClaimSpec (df : DataFrame) (prompt : String) : DataFrame × Bool :=
  if df.isEmpty then (df, false)
  else
    let low := stripLower prompt
    let p := parsePrompt low
    match p.op, p.num with
    | some op, some n =>
      let ts := targetCols df low
      (⟨df.cols.map (fun c => if c.1 ∈ ts then (c.1, claimApplyCol op n p.pct c.2) else c)⟩,
        df.cols.any (fun c => decide (c.1 ∈ ts) && isNumData c.2))
    | _, _ => (df, false)

/-- The specification of claim C1 amended by the single correction the
code forces: a parsed divisor equal to 0 skips the division branch, so
the dataframe comes back unchanged with `applied = False`. -/
def ruleClaimSpecAmended (df : DataFrame) (prompt : String) : DataFrame × Bool :=
  if df.isEmpty then (df, false)
  else
    let low := stripLower prompt
    let p := parsePrompt low
    match p.op, p.num with
    | some op, some n =>
      if op = RuleOp.div ∧ n.toRat = 0 then (df, false)
      else
        let ts := targetCols df low
        (⟨df.cols.map (fun c => if c.1 ∈ ts then (c.1, claimApplyCol op n p.pct c.2) else c)⟩,
          df.cols.any (fun c => decide (c.1 ∈ ts) && isNumData c.2))
    | _, _ => (df, false)

/-! ## The alter-dataset route driver

Lines 859 to 885 of `dataset_alter_expand.py`.  The dataframe produced by
each strategy is abstracted into an environment; `alter_csv` either
returns a dataframe or raises, which an `Except` models. -/

/-- Behaviour of the three alteration strategies on the request at hand. -/
structure AlterEnv (D : Type) where
  ruleResult : D × Bool
  useLlm : Bool
  llmResult : Except String D
  offlineResult : D

/-- Shallow embedding of the strategy selection in `alter_dataset`:
rule-based first, then the LLM when a key is configured and the call does
not raise, then the offline noise alteration; the second component is the
`generation_mode` field of the response. -/
def alter_dataset_mode {D : Type} (e : AlterEnv D) : D × String :=
  let a0 : Option D := none
  let s1 : Option D × String :=
    if e.ruleResult.2 then (some e.ruleResult.1, "rule-based") else (a0, "offline")
  let s2 : Option D × String :=
    if s1.1.isNone && e.useLlm then
      match e.llmResult with
      | Except.ok d => (some d, "llm")
      | Except.error _ => s1
    else s1
  match s2.1 with
  | some d => (d, s2.2)
  | none => (e.offlineResult, "offline")

/-! ## Provider selection of `DataExpander.__init__` (lines 55 to 70) -/

/-- Key material visible to the constructor: the `openrouter_api_key`
argument and the environment variables (empty string models a missing
value, matching Python falsiness). -/
structure ExpanderEnv where
  openrouterArg : String
  envOpenrouterKey : String
  envGoogleKey : Bool

/-- The effective OpenRouter key:
`openrouter_api_key or os.getenv("OPENROUTER_API_KEY", "")`. -/
def effectiveKey (e : ExpanderEnv) : String :=
  if e.openrouterArg ≠ "" then e.openrouterArg else e.envOpenrouterKey

/-- Shallow embedding of the provider selection in
`DataExpander.__init__`: unknown provider strings normalise to `auto`,
and `auto` resolves to openrouter, gemini or offline. -/
def initProvider (e : ExpanderEnv) (provider : String) : String :=
  let p := if provider = "openrouter" ∨ provider = "gemini" ∨ provider = "auto"
    then provider else "auto"
  if p = "auto" then
    if effectiveKey e ≠ "" then "openrouter"
    else if e.envGoogleKey then "gemini"
    else "offline"
  else p

/-! ## Offline dataset expansion (lines 161 to 198)

`expand_csv_offline` appends `num_samples` synthetic rows: numeric
columns receive draws of `rng.normal(mu, s)` around the column mean,
text columns receive draws from the pool of existing non-null values or
the literal synthetic placeholder.  The random generator and the standard
deviation (a square root, not rational) are oracles. -/

/-- Oracle for the randomness and the standard deviation used by
`expand_csv_offline`: `normal mu s i j` is the normal draw for sample `i`
in column `j`, `choice i j` the raw index drawn from a pool, and
`stdFn` the population standard deviation `df[col].std(ddof=0)`. -/
structure RandEnv where
  normal : ℚ → ℚ → Nat → Nat → ℚ
  choice : Nat → Nat → Nat
  stdFn : List ℚ → ℚ

/-- Column mean `df[col].mean()` (0 for an empty column, where pandas
yields NaN; the claims only use it on non-empty data). -/
def colMean (vs : List ℚ) : ℚ :=
  if vs.length = 0 then 0 else vs.sum / (vs.length : ℚ)

/-- The sigma stored in `stats` at line 174:
`std(ddof=0) if std(ddof=0) > 0 else (abs(mean) or 1.0)`. -/
def sigma0 (e : RandEnv) (vs : List ℚ) : ℚ :=
  let sd := e.stdFn vs
  if sd > 0 then sd else (if |colMean vs| ≠ 0 then |colMean vs| else 1)

/-- The second fallback at line 186:
`s = sigma if sigma and sigma > 0 else (abs(mu) * 0.1 or 1.0)`. -/
def sigma1 (sigma mu : ℚ) : ℚ :=
  if sigma ≠ 0 ∧ sigma > 0 then sigma
  else (if |mu| * (1 / 10) ≠ 0 then |mu| * (1 / 10) else 1)

/-- Pool of reusable values of a text column (line 178):
non-null values whose string form does not strip to the empty string. -/
def poolOf (vs : List (Option String)) : List String :=
  (vs.filterMap id).filter (fun s => stripChars s.toList ≠ [])

/-- Synthetic value for sample `i` of a text column (lines 192 to 196):
a pool draw when the pool is non-empty, else the synthetic placeholder. -/
def expandTxtVal (e : RandEnv) (pool : List String) (i j : Nat) : String :=
  if pool.isEmpty then "synthetic_" ++ toString (i + 1)
  else pool.getD (e.choice i j % pool.length) ""

/-- New synthetic cells of column `j` (lines 181 to 197), in sample
order. -/
def expandColNew (e : RandEnv) (num : Nat) (j : Nat) : ColData → ColData
  | ColData.num vs =>
    let mu := colMean vs
    let s := sigma1 (sigma0 e vs) mu
    ColData.num (vs ++ (List.range num).map (fun i => e.normal mu s i j))
  | ColData.txt vs =>
    ColData.txt (vs ++ (List.range num).map (fun i => some (expandTxtVal e (poolOf vs) i j)))

/-- Shallow embedding of `DataExpander.expand_csv_offline`
(lines 161 to 198): an empty dataframe is returned unchanged, otherwise
every column is extended by `num` synthetic cells appended after the
original ones. -/
def expand_csv_offline (e : RandEnv) (df : DataFrame) (num : Nat) : DataFrame :=
  if df.isEmpty then df
  else ⟨df.cols.enum.map (fun jc => (jc.2.1, expandColNew e num jc.1 jc.2.2))⟩

/-! ## The expand-dataset route driver (lines 752 to 768) -/

/-- Behaviour of the expansion strategies on the request at hand;
`provider` is the provider the constructed `DataExpander` resolved to. -/
structure ExpandRouteEnv (D : Type) where
  useLlm : Bool
  provider : String
  llmResult : Except String D
  offlineResult : D

/-- Shallow embedding of the strategy selection in `expand_dataset`:
the LLM path runs only under `use_llm` and may raise; otherwise the
offline expansion runs and `generation_mode` is `offline`. -/
def expand_dataset_mode {D : Type} (e : ExpandRouteEnv D) : D × String :=
  let s1 : Option D × String :=
    if e.useLlm then
      match e.llmResult with
      | Except.ok d =>
        (some d, if e.provider = "openrouter" ∨ e.provider = "gemini" then "llm" else "offline")
      | Except.error _ => (none, "offline")
    else (none, "offline")
  match s1.1 with
  | some d => (d, s1.2)
  | none => (e.offlineResult, "offline")

/-! ## The Gemini retry chain (lines 100 to 152) -/

/-- Environment of `generate_with_gemini`: whether `GOOGLE_API_KEY` is
set, the requested model name, the model names collected from
`genai.list_models()` (empty when the listing raised immediately), and
the outcome of `generate_content` per model (`error` models a raised
exception, `ok` the extracted text, with the empty string for a missing
text). -/
structure GeminiEnv where
  googleKey : Bool
  modelName : String
  available : List String
  gen : String → Except String String

/-- The fixed fallback models of lines 106 to 112. -/
def geminiFallbacks : List String :=
  [ "gemini-1.5-flash-8b-latest", "gemini-1.5-flash-latest", "gemini-1.5-pro-latest",
    "gemini-1.5-flash", "gemini-1.5-pro"]

/-- The `requested` list of lines 103 to 112: the configured model first
when its name starts with `gemini`, then the fixed fallbacks. -/
def geminiRequested (e : GeminiEnv) : List String :=
  (if e.modelName.startsWith "gemini" then [e.modelName] else []) ++ geminiFallbacks

/-- The `candidates` list of lines 121 to 129: filtered through the
available models when any were listed (with the `models/` rename), and
falling back to `requested` when the filter leaves nothing. -/
def geminiCandidates (e : GeminiEnv) : List String :=
  let cs := if e.available ≠ [] then
      (geminiRequested e).filterMap (fun m =>
        if m ∈ e.available then some m
        else if ( "models/" ++ m) ∈ e.available then some ( "models/" ++ m)
        else none)
    else geminiRequested e
  if cs = [] then geminiRequested e else cs

/-- The retry loop of lines 131 to 152, threading `last_err`: the first
candidate that yields non-empty text wins; after the last candidate the
connection-error string is built from `last_err or "Unknown error"`. -/
def geminiLoop (gen : String → Except String String) :
    List String → Option String → String
  | [], lastErr =>
    let le := lastErr.getD ""
    "Connection error: " ++ (if le = "" then "Unknown error" else le)
  | m :: ms, _ =>
    match gen m with
    | Except.ok t => if t ≠ "" then t else geminiLoop gen ms (some ( "Empty response"))
    | Except.error msg => geminiLoop gen ms (some msg)

/-- Shallow embedding of `DataExpander.generate_with_gemini`. -/
def generate_with_gemini (e : GeminiEnv) : String :=
  if e.googleKey = false then "NO_GEMINI_API_KEY"
  else geminiLoop e.gen (geminiCandidates e) none

/-- Outcome of one candidate that makes the loop move on: an exception or
empty text. -/
def badGen : Except String String → Bool
  | Except.ok t => t == ""
  | Except.error _ => true

/-! ## Branch dispatch of the `/process` route (app.py lines 1166 to 1353)

After the input phase exactly one of `df` and `dataset_folder` is set
(or neither); the route then dispatches on that and on `task_type`. -/

/-- Which data source the input phase produced. -/
inductive DataSourceKind where
  | frame
  | folder
  | noData
deriving DecidableEq, Repr

/-- The pipeline branch that runs. -/
inductive ProcessBranch where
  | tabular
  | imageClassification
  | objectDetection
  | errorUnsupported
  | errorNoData
deriving DecidableEq, Repr

/-- Shallow embedding of the dispatch in `process`: a loaded dataframe
always takes the tabular pipeline; a dataset folder dispatches on
`task_type`, with an unsupported-task error otherwise. -/
def processBranch (src : DataSourceKind) (task_type : String) : ProcessBranch :=
  match src with
  | DataSourceKind.frame => ProcessBranch.tabular
  | DataSourceKind.folder =>
    if task_type = "image_classification" then ProcessBranch.imageClassification
    else if task_type = "object_detection" then ProcessBranch.objectDetection
    else ProcessBranch.errorUnsupported
  | DataSourceKind.noData => ProcessBranch.errorNoData

/-! ## The async job tracker of `app_sync_backup.py` (lines 69 to 114) -/

/-- One entry of the `jobs` dictionary. -/
structure Job where
  status : String
  progress : String
  result : Option String
  error : Option String
  created_at : ℚ
deriving DecidableEq, Repr

/-- The `jobs` dictionary, keyed by job id. -/
abbrev Jobs : Type := List (String × Job)

/-- Dictionary lookup (first binding wins, so insertion at the head
shadows older bindings like a dict overwrite). -/
def lookupJob : Jobs → String → Option Job
  | [], _ => none
  | kv :: rest, job_id => if kv.1 = job_id then some kv.2 else lookupJob rest job_id

/-- Shallow embedding of `create_job` (lines 76 to 87) given the fresh id
and the current time. -/
def create_job (jobs : Jobs) (job_id : String) (now : ℚ) : Jobs :=
  (job_id, ⟨ "queued", "Job queued for processing", none, none, now⟩) :: jobs

/-- Shallow embedding of `update_job_status` (lines 89 to 99): fields
update only when the corresponding argument is not `None`, and an absent
id leaves the dictionary unchanged. -/
def update_job_status (jobs : Jobs) (job_id status : String)
    (progress result error : Option String) : Jobs :=
  jobs.map (fun kv =>
    if kv.1 = job_id then
      (kv.1,
        { status := status
          progress := progress.getD kv.2.progress
          result := result.orElse (fun _ => kv.2.result)
          error := error.orElse (fun _ => kv.2.error)
          created_at := kv.2.created_at })
    else kv)

/-- Return value of `get_job_status`: the stored job dictionary, or the
literal dictionary containing only `status = "not_found"`. -/
inductive JobStatusView where
  | found (j : Job)
  | notFound
deriving DecidableEq, Repr

/-- Shallow embedding of `get_job_status` (lines 101 to 104). -/
def get_job_status (jobs : Jobs) (job_id : String) : JobStatusView :=
  match lookupJob jobs job_id with
  | some j => JobStatusView.found j
  | none => JobStatusView.notFound

/-- Age test of `cleanup_old_jobs` (line 111): strictly older than one
hour. -/
def jobExpired (now : ℚ) (j : Job) : Bool := decide (now - j.created_at > 3600)

/-- Shallow embedding of `cleanup_old_jobs` (lines 106 to 114): delete
exactly the expired jobs and return their count. -/
def cleanup_old_jobs (jobs : Jobs) (now : ℚ) : Jobs × Nat :=
  ((jobs : List (String × Job)).filter (fun kv => !jobExpired now kv.2),
    ((jobs : List (String × Job)).filter (fun kv => jobExpired now kv.2)).length)

/-- The tracker operations as the module actually invokes them: every
`update_job_status` call site in `app_sync_backup.py`
(lines 121 to 229) passes the status `"running"`. -/
inductive TrackerOp where
  | create (id : String) (now : ℚ)
  | updateRunning (id : String) (progress : Option String)
  | cleanup (now : ℚ)

/-- Run one tracker operation. -/
def runTrackerOp (jobs : Jobs) : TrackerOp → Jobs
  | TrackerOp.create id now => create_job jobs id now
  | TrackerOp.updateRunning id p => update_job_status jobs id "running" p none none
  | TrackerOp.cleanup now => (cleanup_old_jobs jobs now).1

/-- Run a sequence of tracker operations from the initial empty
dictionary. -/
def runTrackerOps (ops : List TrackerOp) : Jobs :=
  ops.foldl runTrackerOp ([] : Jobs)

/-! ## Python block structure for the two syntax-error claims

The tokenizer of CPython emits INDENT/DEDENT from the leading whitespace
of logical lines; blank lines and comment-only lines emit none.  A
compound statement header (a line ending in a colon, such as `def ...:`
or `if ...:`) must be followed by a suite whose first logical line is
indented strictly more than the header, otherwise compilation fails with
an IndentationError, so the module never imports. -/

/-- Kind of a physical source line. -/
inductive PyLineKind where
  | code
  | comment
  | blank
deriving DecidableEq, Repr

/-- A physical source line: number, indentation width, kind. -/
structure PyLine where
  lineno : Nat
  indent : Nat
  kind : PyLineKind
deriving DecidableEq, Repr

/-- Indentation of the first logical (code) line, skipping blank and
comment lines like the tokenizer does. -/
def firstCodeIndent : List PyLine → Option Nat
  | [] => none
  | l :: ls => if l.kind = PyLineKind.code then some l.indent else firstCodeIndent ls

/-- Whether a compound-statement header is followed by a properly
indented suite. -/
def headerHasSuite (header : PyLine) (rest : List PyLine) : Bool :=
  match firstCodeIndent rest with
  | some i => decide (header.indent < i)
  | none => false

/-- Line 341 of `dataset_alter_expand.py`:
`    def alter_csv(self, df, alter_prompt):` at indentation 4. -/
def daeLine341 : PyLine := ⟨341, 4, PyLineKind.code⟩

/-- Lines 342 and 343 of `dataset_alter_expand.py`: a blank line, then
`    def expand_csv_offline(self, df, num_samples):` at indentation 4. -/
def daeLinesAfter341 : List PyLine :=
  [⟨342, 0, PyLineKind.blank⟩, ⟨343, 4, PyLineKind.code⟩]

/-- Line 232 of `app_sync_backup.py`: `        if df is not None:` at
indentation 8 inside `process_ml_job`. -/
def asbLine232 : PyLine := ⟨232, 8, PyLineKind.code⟩

/-- Lines 233 to 235 of `app_sync_backup.py`: a whitespace-only line, the
comment `        # Process data and train model`, then the second
`        if df is not None:`, all at indentation 8. -/
def asbLinesAfter232 : List PyLine :=
  [⟨233, 8, PyLineKind.blank⟩, ⟨234, 8, PyLineKind.comment⟩, ⟨235, 8, PyLineKind.code⟩]

/-! ## Concrete inputs used by counterexamples and witnesses -/

/-- A one-column numeric dataframe with a single row. -/
def dfX : DataFrame := ⟨[( "x", ColData.num [1])]⟩

/-- A prompt whose parsed operation is a division by zero. -/
def divZeroPrompt : String := "divide x by 0"

/-- A dataframe with a numeric column and no rows (`df.empty` holds). -/
def dfEmptyCol : DataFrame := ⟨[( "x", ColData.num [])]⟩

/-- A constant randomness oracle. -/
def randEnv0 : RandEnv := ⟨fun _ _ _ _ => 0, fun _ _ => 0, fun _ => 0⟩

/-- Default entry for indexed access into column lists. -/
def pyDfltCol : String × ColData := ( "", ColData.num [])

/-- An alteration environment in which the rule-based transform matched. -/
def alterEnvW : AlterEnv Nat := ⟨(7, true), false, Except.error "down", 9⟩

/-- A Gemini environment whose every generation attempt raises. -/
def geminiEnvW : GeminiEnv := ⟨true, "m", [], fun _ => Except.error "boom"⟩

/-- Predicate for the frame property of one column pair: the name is kept,
the number of cells is kept, and a non-numeric or untargeted column is
kept entirely. -/
def framePred (ts : List String) (a b : String × ColData) : Prop :=
  b.1 = a.1 ∧ dataLen b.2 = dataLen a.2 ∧
    (isNumData a.2 = false → b = a) ∧ (a.1 ∉ ts → b = a)

/-! # Theorems -/

/-- The decimal zero test agrees with the rational value being zero. -/
theorem Dec.isZero_iff (d : Dec) : d.isZero = true ↔ d.toRat = 0 := by
  have hpow : ((10 : ℚ) ^ d.shift) ≠ 0 := pow_ne_zero _ (by norm_num)
  simp [Dec.isZero, Dec.toRat, div_eq_zero_iff, hpow]

/-- A missing numeral leaves every column untouched and the flag down. -/
theorem alterCols_none (op : RuleOp) (pct : Bool) (ts : List String)
    (cs : List (String × ColData)) :
    alterCols op none pct ts cs = (cs, false) := by
  induction cs with
  | nil => rfl
  | cons c rest ih =>
    obtain ⟨nm, cd⟩ := c
    by_cases h : nm ∈ ts
    · cases cd <;> cases op <;> simp [alterCols, transformCol, h, ih]
    · simp [alterCols, h, ih]

/-- A zero divisor makes the division branch skip every column. -/
theorem alterCols_div_zero (d : Dec) (hd : d.isZero = true) (pct : Bool)
    (ts : List String) (cs : List (String × ColData)) :
    alterCols RuleOp.div (some d) pct ts cs = (cs, false) := by
  induction cs with
  | nil => rfl
  | cons c rest ih =>
    obtain ⟨nm, cd⟩ := c
    by_cases h : nm ∈ ts
    · cases cd <;> simp [alterCols, transformCol, h, hd, ih]
    · simp [alterCols, h, ih]

/-- Away from the zero-divisor case the loop of `alter_csv_rule_based`
computes exactly the map and flag described by the claim. -/
theorem alterCols_eq (op : RuleOp) (d : Dec) (pct : Bool) (ts : List String)
    (cs : List (String × ColData)) (hguard : op = RuleOp.div → d.isZero = false) :
    alterCols op (some d) pct ts cs =
      (cs.map (fun c => if c.1 ∈ ts then (c.1, claimApplyCol op d pct c.2) else c),
        cs.any (fun c => decide (c.1 ∈ ts) && isNumData c.2)) := by
  induction cs with
  | nil => rfl
  | cons c rest ih =>
    obtain ⟨nm, cd⟩ := c
    by_cases h : nm ∈ ts
    · cases cd with
      | txt vs => simp [alterCols, transformCol, claimApplyCol, isNumData, h, ih]
      | num vs =>
        cases op with
        | mul => simp [alterCols, transformCol, claimApplyCol, claimOpFun, isNumData, h, ih]
        | div =>
          simp [alterCols, transformCol, claimApplyCol, claimOpFun, isNumData, h, ih,
            hguard rfl]
        | add => simp [alterCols, transformCol, claimApplyCol, claimOpFun, isNumData, h, ih]
        | sub => simp [alterCols, transformCol, claimApplyCol, claimOpFun, isNumData, h, ih]
    · simp [alterCols, h, ih]

/-- C1 (counterexample): on a one-row numeric dataframe the prompt
`divide x by 0` parses to a division, which the claim says is applied
element-wise; the code however skips the zero divisor and reports
`applied = False`, so the behaviour claimed by C1 differs from the code
at this input. -/
theorem C1_counterexample :
    alter_csv_rule_based dfX divZeroPrompt ≠ ruleClaimSpec dfX divZeroPrompt :=
  fun h => absurd (congrArg (fun r => r.2) h) (by decide)

/-- C1 (amended): for every non-empty dataframe and every prompt,
`alter_csv_rule_based` behaves exactly as the claim describes, amended
only in that a parsed divisor equal to zero skips the division branch and
returns the dataframe unchanged with `applied = False`. -/
theorem C1_rule_based_matches_amended_claim (df : DataFrame) (prompt : String)
    (h : df.isEmpty = false) :
    alter_csv_rule_based df prompt = ruleClaimSpecAmended df prompt := by
  unfold alter_csv_rule_based ruleClaimSpecAmended
  simp only [h, Bool.false_eq_true, if_false]
  cases hop : (parsePrompt (stripLower prompt)).op with
  | none =>
    cases hnum : (parsePrompt (stripLower prompt)).num <;> simp [hop, hnum]
  | some op =>
    cases hnum : (parsePrompt (stripLower prompt)).num with
    | none => simp [hop, hnum, alterCols_none]
    | some d =>
      by_cases hz : op = RuleOp.div ∧ d.toRat = 0
      · obtain ⟨ho, hzr⟩ := hz
        subst ho
        simp [hop, hnum, alterCols_div_zero d ((Dec.isZero_iff d).mpr hzr), hzr]
      · have hguard : op = RuleOp.div → d.isZero = false := by
          intro ho
          rcases Bool.eq_false_or_eq_true d.isZero with ht | hf
          · exact absurd ⟨ho, (Dec.isZero_iff d).mp ht⟩ hz
          · exact hf
        simp [hop, hnum, alterCols_eq op d _ _ _ hguard, hz]

/-- C1 (witness): the amended equivalence instantiated on a concrete
non-empty dataframe and prompt. -/
theorem C1_witness :
    dfX.isEmpty = false ∧
      alter_csv_rule_based dfX "multiply x by 3" =
        ruleClaimSpecAmended dfX "multiply x by 3" :=
  ⟨by decide, C1_rule_based_matches_amended_claim dfX "multiply x by 3" (by decide)⟩

/-- Transforming a column never changes its number of cells. -/
theorem dataLen_transformCol (op : RuleOp) (n : Option Dec) (pct : Bool) (cd : ColData) :
    dataLen (transformCol op n pct cd).1 = dataLen cd := by
  cases cd with
  | txt vs => rfl
  | num vs =>
    cases n with
    | none => cases op <;> rfl
    | some d =>
      cases op with
      | mul => simp [transformCol, dataLen]
      | div =>
        by_cases hz : d.isZero = true
        · simp [transformCol, dataLen, hz]
        · simp only [Bool.not_eq_true] at hz
          simp [transformCol, dataLen, hz]
      | add => simp [transformCol, dataLen]
      | sub => simp [transformCol, dataLen]

/-- The loop of `alter_csv_rule_based` satisfies the frame property
column by column. -/
theorem alterCols_frame (op : RuleOp) (n : Option Dec) (pct : Bool) (ts : List String)
    (cs : List (String × ColData)) :
    List.Forall₂ (framePred ts) cs (alterCols op n pct ts cs).1 := by
  induction cs with
  | nil => simp [alterCols]
  | cons c rest ih =>
    obtain ⟨nm, cd⟩ := c
    by_cases h : nm ∈ ts
    · simp only [alterCols, h, if_pos]
      refine List.Forall₂.cons ⟨rfl, dataLen_transformCol op n pct cd, ?_, ?_⟩ ih
      · intro hnn
        cases cd with
        | txt vs => cases n with
          | none => cases op <;> rfl
          | some d => cases op <;> rfl
        | num vs => simp [isNumData] at hnn
      · intro hmem
        exact absurd h hmem
    · simp only [alterCols, h, if_neg, not_false_iff]
      exact List.Forall₂.cons ⟨rfl, rfl, fun _ => rfl, fun _ => rfl⟩ ih

/-- C4: for every dataframe and prompt, `alter_csv_rule_based` keeps the
column names in order, keeps every column length (hence the row count),
and returns every non-numeric and every untargeted column unchanged:
only targeted numeric columns may differ. -/
theorem C4_rule_based_frame (df : DataFrame) (prompt : String) :
    List.Forall₂ (framePred (targetCols df (stripLower prompt))) df.cols
      (alter_csv_rule_based df prompt).1.cols := by
  have hsame : List.Forall₂ (framePred (targetCols df (stripLower prompt))) df.cols df.cols :=
    List.forall₂_same.mpr (fun a _ => ⟨rfl, rfl, fun _ => rfl, fun _ => rfl⟩)
  unfold alter_csv_rule_based
  by_cases he : df.isEmpty = true
  · rw [if_pos he]
    exact hsame
  · rw [if_neg he]
    cases hop : (parsePrompt (stripLower prompt)).op with
    | none =>
      simp only [hop]
      exact hsame
    | some op =>
      simp only [hop]
      exact alterCols_frame op _ _ _ _

/-- C4 (witness): the frame property instantiated on a concrete dataframe
and prompt. -/
theorem C4_witness :
    List.Forall₂ (framePred (targetCols dfX (stripLower "multiply x by 3"))) dfX.cols
      (alter_csv_rule_based dfX "multiply x by 3").1.cols :=
  C4_rule_based_frame dfX "multiply x by 3"

/-- C5: whenever the parsed operation is a division whose parsed divisor
equals zero, `alter_csv_rule_based` performs no division at all: it
returns the dataframe with every value unchanged and `applied = False`. -/
theorem C5_div_zero_guard (df : DataFrame) (prompt : String) (d : Dec)
    (hop : (parsePrompt (stripLower prompt)).op = some RuleOp.div)
    (hnum : (parsePrompt (stripLower prompt)).num = some d)
    (hz : d.toRat = 0) :
    alter_csv_rule_based df prompt = (df, false) := by
  unfold alter_csv_rule_based
  by_cases he : df.isEmpty = true
  · simp [he]
  · simp only [Bool.not_eq_true] at he
    simp [he, hop, hnum, alterCols_div_zero d ((Dec.isZero_iff d).mpr hz)]

/-- C5 (witness): the guard instantiated on the concrete prompt
`divide x by 0`, whose parsed divisor is the decimal zero. -/
theorem C5_witness :
    (parsePrompt (stripLower divZeroPrompt)).op = some RuleOp.div ∧
      (parsePrompt (stripLower divZeroPrompt)).num = some (⟨0, 0⟩ : Dec) ∧
      (⟨0, 0⟩ : Dec).toRat = 0 ∧
      alter_csv_rule_based dfX divZeroPrompt = (dfX, false) :=
  ⟨by decide, by decide, by simp [Dec.toRat],
    C5_div_zero_guard dfX divZeroPrompt ⟨0, 0⟩ (by decide) (by decide) (by simp [Dec.toRat])⟩

/-- C2: the `def alter_csv(self, df, alter_prompt):` header at line 341 of
`dataset_alter_expand.py` has no suite: the next logical line (line 343)
sits at the same indentation, so by the Python block-structure rule the
module fails to compile at import time, and none of its operations (the
`DataExpander` methods and every Flask route of the module) can ever
execute. -/
theorem C2_alter_csv_has_no_suite :
    headerHasSuite daeLine341 daeLinesAfter341 = false := by decide

/-- C9: the `if df is not None:` header at line 232 of
`app_sync_backup.py` has no suite: the next logical line (line 235, after
a whitespace-only line and a comment line, which the tokenizer skips)
sits at the same indentation, so the file does not parse as Python. -/
theorem C9_duplicated_if_has_no_suite :
    headerHasSuite asbLine232 asbLinesAfter232 = false := by decide

/-- C3: the alteration strategies are tried in the fixed order rule-based,
LLM, offline: a rule match yields the rule-based result and the mode
`rule-based`; with no rule match, a configured LLM key and a successful
LLM call yield the LLM result and the mode `llm`; and with no rule match
and either no key or a raising LLM call, the offline result and the mode
`offline` come back. -/
theorem C3_alter_fallback_order {D : Type} (e : AlterEnv D) :
    (e.ruleResult.2 = true → alter_dataset_mode e = (e.ruleResult.1, "rule-based")) ∧
      (e.ruleResult.2 = false → e.useLlm = true → ∀ d, e.llmResult = Except.ok d →
        alter_dataset_mode e = (d, "llm")) ∧
      (e.ruleResult.2 = false →
        (e.useLlm = false ∨ ∃ msg, e.llmResult = Except.error msg) →
        alter_dataset_mode e = (e.offlineResult, "offline")) := by
  refine ⟨fun h1 => ?_, fun h1 h2 d hd => ?_, fun h1 h2 => ?_⟩
  · simp [alter_dataset_mode, h1]
  · simp [alter_dataset_mode, h1, h2, hd]
  · rcases h2 with h2 | ⟨msg, hmsg⟩
    · simp [alter_dataset_mode, h1, h2]
    · simp [alter_dataset_mode, h1, hmsg]

/-- C3 (witness): in an environment where the rule-based transform
matched, the route reports the rule-based result and mode. -/
theorem C3_witness : alter_dataset_mode alterEnvW = (7, "rule-based") :=
  (C3_alter_fallback_order alterEnvW).1 rfl

/-- C7 (counterexample): with an uploaded dataset folder and the task
type `classification` the route does not run the tabular pipeline (as
the claim would have it) but returns an unsupported-task error. -/
theorem C7_counterexample :
    processBranch DataSourceKind.folder "classification" ≠ ProcessBranch.tabular := by
  decide

/-- C7 (amended): the branch dispatch of `/process` depends on the data
source as well as on `task_type`: a loaded dataframe always takes the
tabular pipeline; with a dataset folder the image-classification branch
runs iff `task_type = "image_classification"` and the object-detection
branch iff `task_type = "object_detection"`, any other task type giving
an unsupported-task error; with no data an error is returned; exactly one
branch runs. -/
theorem C7_branch_dispatch (src : DataSourceKind) (tt : String) :
    (processBranch src tt = ProcessBranch.imageClassification ↔
      src = DataSourceKind.folder ∧ tt = "image_classification") ∧
      (processBranch src tt = ProcessBranch.objectDetection ↔
        src = DataSourceKind.folder ∧ tt = "object_detection") ∧
      (src = DataSourceKind.frame → processBranch src tt = ProcessBranch.tabular) ∧
      (src = DataSourceKind.folder → tt ≠ "image_classification" →
        tt ≠ "object_detection" → processBranch src tt = ProcessBranch.errorUnsupported) ∧
      (src = DataSourceKind.noData → processBranch src tt = ProcessBranch.errorNoData) := by
  cases src with
  | frame => simp [processBranch]
  | folder =>
    by_cases h1 : tt = "image_classification"
    · simp [processBranch, h1]
    · by_cases h2 : tt = "object_detection"
      · simp [processBranch, h1, h2]
      · simp [processBranch, h1, h2]
  | noData => simp [processBranch]

/-- C7 (witness): the dispatch instantiated on a folder upload with the
image-classification task type. -/
theorem C7_witness :
    processBranch DataSourceKind.folder "image_classification" =
      ProcessBranch.imageClassification :=
  (C7_branch_dispatch DataSourceKind.folder "image_classification").1.mpr ⟨rfl, rfl⟩

/-- When every remaining candidate raises or yields empty text, the retry
loop ends in the connection-error string. -/
theorem geminiLoop_all_bad (gen : String → Except String String) (cs : List String)
    (le : Option String) (hall : ∀ c ∈ cs, badGen (gen c) = true) :
    ∃ r, geminiLoop gen cs le = "Connection error: " ++ r := by
  induction cs generalizing le with
  | nil =>
    exact ⟨if (le.getD "") = "" then "Unknown error" else le.getD "", rfl⟩
  | cons m ms ih =>
    have hm := hall m (List.mem_cons_self m ms)
    have hrest : ∀ c ∈ ms, badGen (gen c) = true :=
      fun c hc => hall c (List.mem_cons_of_mem m hc)
    cases hgen : gen m with
    | ok t =>
      have ht : t = "" := by
        have := hm
        rw [hgen] at this
        simpa [badGen] using this
      subst ht
      simpa [geminiLoop, hgen] using ih (some "Empty response") hrest
    | error msg =>
      simpa [geminiLoop, hgen] using ih (some msg) hrest

/-- The retry loop returns the text of the first candidate that yields
non-empty text. -/
theorem geminiLoop_first_good (gen : String → Except String String)
    (l1 l2 : List String) (c t : String) (le : Option String)
    (hbad : ∀ c2 ∈ l1, badGen (gen c2) = true)
    (hok : gen c = Except.ok t) (hne : t ≠ "") :
    geminiLoop gen (l1 ++ c :: l2) le = t := by
  induction l1 generalizing le with
  | nil => simp [geminiLoop, hok, hne]
  | cons m ms ih =>
    have hm := hbad m (List.mem_cons_self m ms)
    have hrest : ∀ c2 ∈ ms, badGen (gen c2) = true :=
      fun c2 hc => hbad c2 (List.mem_cons_of_mem m hc)
    cases hgen : gen m with
    | ok u =>
      have hu : u = "" := by
        have := hm
        rw [hgen] at this
        simpa [badGen] using this
      subst hu
      simpa [geminiLoop, hgen] using ih (some "Empty response") hrest
    | error msg =>
      simpa [geminiLoop, hgen] using ih (some msg) hrest

/-- C8: with a Google key configured, `generate_with_gemini` walks the
candidate list in order and returns the text of the first candidate whose
generation succeeds with non-empty output, and it returns a string
beginning with `Connection error:` exactly when every candidate raised or
produced empty output. -/
theorem C8_gemini_retry_chain (e : GeminiEnv) (hkey : e.googleKey = true) :
    ((∀ c ∈ geminiCandidates e, badGen (e.gen c) = true) →
      ∃ r, generate_with_gemini e = "Connection error: " ++ r) ∧
      (∀ (l1 l2 : List String) (c t : String),
        geminiCandidates e = l1 ++ c :: l2 →
        (∀ c2 ∈ l1, badGen (e.gen c2) = true) →
        e.gen c = Except.ok t → t ≠ "" →
        generate_with_gemini e = t) := by
  constructor
  · intro hall
    have : generate_with_gemini e = geminiLoop e.gen (geminiCandidates e) none := by
      simp [generate_with_gemini, hkey]
    rw [this]
    exact geminiLoop_all_bad e.gen (geminiCandidates e) none hall
  · intro l1 l2 c t hsplit hbad hok hne
    have : generate_with_gemini e = geminiLoop e.gen (geminiCandidates e) none := by
      simp [generate_with_gemini, hkey]
    rw [this, hsplit]
    exact geminiLoop_first_good e.gen l1 l2 c t none hbad hok hne

/-- C8 (witness): in an environment where every generation attempt raises,
the function returns the connection-error string. -/
theorem C8_witness :
    ∃ r, generate_with_gemini geminiEnvW = "Connection error: " ++ r :=
  (C8_gemini_retry_chain geminiEnvW rfl).1 (by decide)

/-- Status invariant of the job tracker: starting from any dictionary in
which every job is queued or running, the operations the module performs
keep every job queued or running. -/
theorem tracker_status_invariant (ops : List TrackerOp) (jobs : Jobs)
    (hinv : ∀ kv ∈ jobs, kv.2.status = "queued" ∨ kv.2.status = "running") :
    ∀ kv ∈ ops.foldl runTrackerOp jobs,
      kv.2.status = "queued" ∨ kv.2.status = "running" := by
  induction ops generalizing jobs with
  | nil => simpa using hinv
  | cons op rest ih =>
    refine ih (runTrackerOp jobs op) ?_
    cases op with
    | create id now =>
      intro kv hkv
      rcases List.mem_cons.mp hkv with h | h
      · subst h
        exact Or.inl rfl
      · exact hinv kv h
    | updateRunning id p =>
      intro kv hkv
      rcases List.mem_map.mp hkv with ⟨kv0, hkv0, hmap⟩
      by_cases hid : kv0.1 = id
      · rw [if_pos hid] at hmap
        subst hmap
        exact Or.inr rfl
      · rw [if_neg hid] at hmap
        subst hmap
        exact hinv kv0 hkv0
    | cleanup now =>
      intro kv hkv
      exact hinv kv (List.mem_of_mem_filter hkv)

/-- C10: the job tracker offers no cancellation and minimal status
reporting: `create_job` installs a fresh job with status `queued` and
null result and error; `get_job_status` on an absent id returns exactly
the not-found dictionary; no sequence of the module operations ever
gives a job a cancelled status; and `cleanup_old_jobs` keeps exactly the
jobs at most 3600 seconds old and returns the number of deleted ones. -/
theorem C10_job_tracker :
    (∀ (jobs : Jobs) (id : String) (now : ℚ),
      lookupJob (create_job jobs id now) id =
        some ⟨ "queued", "Job queued for processing", none, none, now⟩) ∧
      (∀ (jobs : Jobs) (id : String), lookupJob jobs id = none →
        get_job_status jobs id = JobStatusView.notFound) ∧
      (∀ (ops : List TrackerOp), ∀ kv ∈ runTrackerOps ops, kv.2.status ≠ "cancelled") ∧
      (∀ (jobs : Jobs) (now : ℚ),
        (∀ kv : String × Job,
          kv ∈ (cleanup_old_jobs jobs now).1 ↔ kv ∈ jobs ∧ now - kv.2.created_at ≤ 3600) ∧
          (cleanup_old_jobs jobs now).2 + ((cleanup_old_jobs jobs now).1).length =
            jobs.length) := by
  refine ⟨?_, ?_, ?_, ?_⟩
  · intro jobs id now
    simp [create_job, lookupJob]
  · intro jobs id h
    simp [get_job_status, h]
  · intro ops kv hkv
    have := tracker_status_invariant ops [] (by intro kv h; simp at h) kv hkv
    rcases this with h | h <;> simp [h]
  · intro jobs now
    constructor
    · intro kv
      simp [cleanup_old_jobs, List.mem_filter, jobExpired, not_lt]
    · have := (List.length_eq_length_filter_add
        (l := (jobs : List (String × Job))) (fun kv => jobExpired now kv.2)).symm
      simpa [cleanup_old_jobs, Nat.add_comm] using this

/-- C10 (witness): an unknown job id yields the not-found view. -/
theorem C10_witness : get_job_status ([] : Jobs) "j" = JobStatusView.notFound :=
  C10_job_tracker.2.1 [] "j" rfl

/-- Column `j` of the expanded dataframe: the original name together with
the extended data. -/
theorem expand_getD (e : RandEnv) (num : Nat) (df : DataFrame)
    (hne : df.isEmpty = false) (j : Nat) (h : j < df.cols.length) :
    (expand_csv_offline e df num).cols.getD j pyDfltCol =
      ((df.cols.getD j pyDfltCol).1,
        expandColNew e num j (df.cols.getD j pyDfltCol).2) := by
  unfold expand_csv_offline
  rw [if_neg (by simp [hne])]
  simp only [List.getD_eq_getElem?_getD, List.getElem?_map, List.getElem?_enum,
    List.getElem?_eq_getElem h, Option.map_some', Option.getD_some]

/-- A pool draw of `expand_csv_offline` is either the synthetic
placeholder (empty pool) or a member of the pool. -/
theorem expandTxtVal_spec (e : RandEnv) (pool : List String) (i j : Nat) :
    (pool = [] ∧ expandTxtVal e pool i j = "synthetic_" ++ toString (i + 1)) ∨
      expandTxtVal e pool i j ∈ pool := by
  cases pool with
  | nil => exact Or.inl ⟨rfl, rfl⟩
  | cons p ps =>
    right
    unfold expandTxtVal
    rw [if_neg (by simp)]
    have hlt : e.choice i j % (p :: ps).length < (p :: ps).length :=
      Nat.mod_lt _ (by simp)
    rw [List.getD_eq_getElem?_getD, List.getElem?_eq_getElem hlt, Option.getD_some]
    exact List.getElem_mem hlt

/-- C6 (counterexample): on an empty dataframe (a header-only CSV) the
offline expansion returns the dataframe unchanged, so the result does not
have `len(df) + num_samples` rows as the claim asserts. -/
theorem C6_counterexample :
    ¬ ((expand_csv_offline randEnv0 dfEmptyCol 1).nrows = dfEmptyCol.nrows + 1) := by
  decide

/-- C6 (amended): the `DataExpander` provider auto-selection prefers
OpenRouter, then Gemini, then offline; the expand route falls back to the
offline expansion whenever no LLM key is available or the LLM expansion
raises; and on a non-empty dataframe the offline expansion keeps every
column name, appends exactly `num_samples` cells to every column after
the original ones, draws numeric cells from the normal oracle around the
column mean, and draws text cells from the pool of existing non-null
values or uses the synthetic placeholder; an empty dataframe is returned
unchanged. -/
theorem C6_expander_amended :
    (∀ (e : ExpanderEnv),
      (effectiveKey e ≠ "" → initProvider e "auto" = "openrouter") ∧
        (effectiveKey e = "" → e.envGoogleKey = true → initProvider e "auto" = "gemini") ∧
        (effectiveKey e = "" → e.envGoogleKey = false → initProvider e "auto" = "offline")) ∧
      (∀ (D : Type) (er : ExpandRouteEnv D),
        (er.useLlm = false → expand_dataset_mode er = (er.offlineResult, "offline")) ∧
          (∀ msg, er.llmResult = Except.error msg →
            expand_dataset_mode er = (er.offlineResult, "offline"))) ∧
      (∀ (e : RandEnv) (df : DataFrame) (num : Nat), df.isEmpty = false →
        (expand_csv_offline e df num).cols.length = df.cols.length ∧
          ∀ j, j < df.cols.length →
            ((expand_csv_offline e df num).cols.getD j pyDfltCol).1 =
                (df.cols.getD j pyDfltCol).1 ∧
              dataLen ((expand_csv_offline e df num).cols.getD j pyDfltCol).2 =
                dataLen (df.cols.getD j pyDfltCol).2 + num ∧
              (∀ vs, (df.cols.getD j pyDfltCol).2 = ColData.num vs →
                ((expand_csv_offline e df num).cols.getD j pyDfltCol).2 =
                  ColData.num (vs ++ (List.range num).map (fun i =>
                    e.normal (colMean vs) (sigma1 (sigma0 e vs) (colMean vs)) i j))) ∧
              (∀ vs, (df.cols.getD j pyDfltCol).2 = ColData.txt vs →
                ((expand_csv_offline e df num).cols.getD j pyDfltCol).2 =
                  ColData.txt (vs ++ (List.range num).map (fun i =>
                    some (expandTxtVal e (poolOf vs) i j))))) ∧
      (∀ (e : RandEnv) (pool : List String) (i j : Nat),
        (pool = [] ∧ expandTxtVal e pool i j = "synthetic_" ++ toString (i + 1)) ∨
          expandTxtVal e pool i j ∈ pool) := by
  refine ⟨?_, ?_, ?_, expandTxtVal_spec⟩
  · intro e
    refine ⟨fun h1 => ?_, fun h1 h2 => ?_, fun h1 h2 => ?_⟩
    · simp [initProvider, h1]
    · simp [initProvider, h1, h2]
    · simp [initProvider, h1, h2]
  · intro D er
    refine ⟨fun h1 => ?_, fun msg hmsg => ?_⟩
    · simp [expand_dataset_mode, h1]
    · by_cases h1 : er.useLlm = true
      · simp [expand_dataset_mode, h1, hmsg]
      · simp only [Bool.not_eq_true] at h1
        simp [expand_dataset_mode, h1]
  · intro e df num hne
    constructor
    · simp [expand_csv_offline, hne]
    · intro j hj
      rw [expand_getD e num df hne j hj]
      refine ⟨rfl, ?_, fun vs hvs => ?_, fun vs hvs => ?_⟩
      · cases hcd : (df.cols.getD j pyDfltCol).2 with
        | num vs => simp [expandColNew, dataLen]
        | txt vs => simp [expandColNew, dataLen]
      · rw [hvs]
        rfl
      · rw [hvs]
        rfl

/-- C6 (witness): the expansion structure instantiated on a concrete
non-empty dataframe. -/
theorem C6_witness :
    (expand_csv_offline randEnv0 dfX 2).cols.length = dfX.cols.length :=
  (C6_expander_amended.2.2.1 randEnv0 dfX 2 (by decide)).1
